import Mathlib

/-! LuaGraphicsPrototyper: diagnostics reporter and runner

A shallow embedding of `src/Main.cpp` and `src/Application.cpp`.

* `GLenum`, `unsigned int` and `int` values are natural numbers / integers; no
  arithmetic is performed on them by the program, so no wrap-around arises.
* An output stream (`cerr`, `cout`) is the list of the texts written to it, one
  entry per output statement (a chain of `<<` closed by `endl`), oldest first.
* Calls into GLFW / OpenGL are recorded, in order, in a trace of `Call`s.
-/

namespace LuaGraphicsPrototyper

/-! ## Constants of `glad/glad.h`

The header is third-party and not part of the sources; the values below are the ones the
OpenGL registry assigns to these names. Only their being pairwise distinct within one `switch`
matters to the program. -/

def GL_NO_ERROR : Nat := 0
def GL_INVALID_ENUM : Nat := 0x0500
def GL_INVALID_VALUE : Nat := 0x0501
def GL_INVALID_OPERATION : Nat := 0x0502
def GL_STACK_OVERFLOW : Nat := 0x0503
def GL_STACK_UNDERFLOW : Nat := 0x0504
def GL_OUT_OF_MEMORY : Nat := 0x0505
def GL_INVALID_FRAMEBUFFER_OPERATION : Nat := 0x0506

def GL_DEPTH_BUFFER_BIT : Nat := 0x00000100
def GL_COLOR_BUFFER_BIT : Nat := 0x00004000

def GL_DEBUG_SOURCE_API : Nat := 0x8246
def GL_DEBUG_SOURCE_WINDOW_SYSTEM : Nat := 0x8247
def GL_DEBUG_SOURCE_SHADER_COMPILER : Nat := 0x8248
def GL_DEBUG_SOURCE_THIRD_PARTY : Nat := 0x8249
def GL_DEBUG_SOURCE_APPLICATION : Nat := 0x824A
def GL_DEBUG_SOURCE_OTHER : Nat := 0x824B

def GL_DEBUG_TYPE_ERROR : Nat := 0x824C
def GL_DEBUG_TYPE_DEPRECATED_BEHAVIOR : Nat := 0x824D
def GL_DEBUG_TYPE_UNDEFINED_BEHAVIOR : Nat := 0x824E
def GL_DEBUG_TYPE_PORTABILITY : Nat := 0x824F
def GL_DEBUG_TYPE_PERFORMANCE : Nat := 0x8250
def GL_DEBUG_TYPE_OTHER : Nat := 0x8251
def GL_DEBUG_TYPE_MARKER : Nat := 0x8268
def GL_DEBUG_TYPE_PUSH_GROUP : Nat := 0x8269
def GL_DEBUG_TYPE_POP_GROUP : Nat := 0x826A

def GL_DEBUG_SEVERITY_NOTIFICATION : Nat := 0x826B
def GL_DEBUG_SEVERITY_HIGH : Nat := 0x9146
def GL_DEBUG_SEVERITY_MEDIUM : Nat := 0x9147
def GL_DEBUG_SEVERITY_LOW : Nat := 0x9148

/-- The message types `glad.h` defines (`GL_DEBUG_TYPE_*`). -/
def debugTypes : List Nat :=
  [GL_DEBUG_TYPE_ERROR, GL_DEBUG_TYPE_DEPRECATED_BEHAVIOR, GL_DEBUG_TYPE_UNDEFINED_BEHAVIOR,
   GL_DEBUG_TYPE_PORTABILITY, GL_DEBUG_TYPE_PERFORMANCE, GL_DEBUG_TYPE_MARKER,
   GL_DEBUG_TYPE_PUSH_GROUP, GL_DEBUG_TYPE_POP_GROUP, GL_DEBUG_TYPE_OTHER]

/-- The message sources `glad.h` defines (`GL_DEBUG_SOURCE_*`). -/
def debugSources : List Nat :=
  [GL_DEBUG_SOURCE_API, GL_DEBUG_SOURCE_WINDOW_SYSTEM, GL_DEBUG_SOURCE_SHADER_COMPILER,
   GL_DEBUG_SOURCE_THIRD_PARTY, GL_DEBUG_SOURCE_APPLICATION, GL_DEBUG_SOURCE_OTHER]

/-- The message severities `glad.h` defines (`GL_DEBUG_SEVERITY_*`). -/
def debugSeverities : List Nat :=
  [GL_DEBUG_SEVERITY_HIGH, GL_DEBUG_SEVERITY_MEDIUM, GL_DEBUG_SEVERITY_LOW,
   GL_DEBUG_SEVERITY_NOTIFICATION]

/-! ## Output streams -/

/-- An output stream: the texts written so far, one per output statement. -/
abbrev OStream := List String

/-! ## `putDebugContextMessage` (Main.cpp 41-93) -/

/-- The `switch (type)` of `putDebugContextMessage`: the pair `(colorStr, typeStr)` it leaves
in the two locals, both initialised to `""`. -/
def typeSwitch (type : Nat) : String × String :=
  if type = GL_DEBUG_TYPE_ERROR then ("\x1b[91m", "Error")
  else if type = GL_DEBUG_TYPE_DEPRECATED_BEHAVIOR then ("", "Deprecated Behaviour")
  else if type = GL_DEBUG_TYPE_UNDEFINED_BEHAVIOR then ("", "Undefined Behaviour")
  else if type = GL_DEBUG_TYPE_PORTABILITY then ("", "Portability")
  else if type = GL_DEBUG_TYPE_PERFORMANCE then ("", "Performance")
  else if type = GL_DEBUG_TYPE_MARKER then ("", "Marker")
  else if type = GL_DEBUG_TYPE_PUSH_GROUP then ("", "Push Group")
  else if type = GL_DEBUG_TYPE_POP_GROUP then ("", "Pop Group")
  else if type = GL_DEBUG_TYPE_OTHER then ("", "Other")
  else ("", "")

/-- The local `colorStr` after the `switch (type)`. -/
def colorStr (type : Nat) : String := (typeSwitch type).1

/-- The local `typeStr` after the `switch (type)`. -/
def typeStr (type : Nat) : String := (typeSwitch type).2

/-- The local `sourceStr` after the `switch (source)`. -/
def sourceStr (source : Nat) : String :=
  if source = GL_DEBUG_SOURCE_API then "API"
  else if source = GL_DEBUG_SOURCE_WINDOW_SYSTEM then "Window System"
  else if source = GL_DEBUG_SOURCE_SHADER_COMPILER then "Shader Compiler"
  else if source = GL_DEBUG_SOURCE_THIRD_PARTY then "Third Party"
  else if source = GL_DEBUG_SOURCE_APPLICATION then "Application"
  else if source = GL_DEBUG_SOURCE_OTHER then "Other"
  else ""

/-- The local `severityStr` after the `switch (severity)`. -/
def severityStr (severity : Nat) : String :=
  if severity = GL_DEBUG_SEVERITY_HIGH then "high"
  else if severity = GL_DEBUG_SEVERITY_MEDIUM then "medium"
  else if severity = GL_DEBUG_SEVERITY_LOW then "low"
  else if severity = GL_DEBUG_SEVERITY_NOTIFICATION then "notification"
  else ""

/-- The debug-context callback. `length` and `userParam` are unused by the body (the latter is
left out); the stream `cerr` is threaded through explicitly. -/
def putDebugContextMessage (source type id severity : Nat) (_length : Int) (message : String)
    (cerr : OStream) : OStream :=
  -- ignore non-significant error/warning codes
  if id = 131169 ∨ id = 131185 ∨ id = 131218 ∨ id = 131204 then cerr
  else
    cerr ++ ["Debug Message(" ++ toString id ++ "): " ++ colorStr type ++ message ++
      "\x1b[0m\n  Type:" ++ typeStr type ++
      "\n  Source: " ++ sourceStr source ++
      "\n  Severity: " ++ severityStr severity ++ "\n"]

/-- The type labels of the mapping table as the specification words them; `Push/Pop Group`
is read as the two labels `Push Group` and `Pop Group`. -/
def documentedTypeLabel (type : Nat) : String :=
  if type = GL_DEBUG_TYPE_ERROR then "Error"
  else if type = GL_DEBUG_TYPE_DEPRECATED_BEHAVIOR then "Deprecated Behavior"
  else if type = GL_DEBUG_TYPE_UNDEFINED_BEHAVIOR then "Undefined Behavior"
  else if type = GL_DEBUG_TYPE_PORTABILITY then "Portability"
  else if type = GL_DEBUG_TYPE_PERFORMANCE then "Performance"
  else if type = GL_DEBUG_TYPE_MARKER then "Marker"
  else if type = GL_DEBUG_TYPE_PUSH_GROUP then "Push Group"
  else if type = GL_DEBUG_TYPE_POP_GROUP then "Pop Group"
  else if type = GL_DEBUG_TYPE_OTHER then "Other"
  else ""

/-! ## `_internal_checkGlErrors` (Main.cpp 95-114) -/

/-- Modelled from the spec: `glGetError` belongs to the graphics driver, outside the sources. An
error code is "a single enum value drained from a FIFO queue maintained by the graphics
driver": the call removes and returns the oldest pending code, and returns `GL_NO_ERROR` when
nothing is pending. -/
def glGetError (queue : List Nat) : Nat × List Nat :=
  match queue with
  | [] => (GL_NO_ERROR, [])
  | errorCode :: rest => (errorCode, rest)

/-- The local `error` after the `switch (errorCode)`. -/
def errorStr (errorCode : Nat) : String :=
  if errorCode = GL_INVALID_ENUM then "INVALID_ENUM"
  else if errorCode = GL_INVALID_VALUE then "INVALID_VALUE"
  else if errorCode = GL_INVALID_OPERATION then "INVALID_OPERATION"
  else if errorCode = GL_STACK_OVERFLOW then "STACK_OVERFLOW"
  else if errorCode = GL_STACK_UNDERFLOW then "STACK_UNDERFLOW"
  else if errorCode = GL_OUT_OF_MEMORY then "OUT_OF_MEMORY"
  else if errorCode = GL_INVALID_FRAMEBUFFER_OPERATION then "INVALID_FRAMEBUFFER_OPERATION"
  else ""

/-- The polling drain: `while ((errorCode = glGetError()) != GL_NO_ERROR) log`. The state is the
driver's error queue and the stream `cerr`. -/
def _internal_checkGlErrors (file : String) (line : Int) (queue : List Nat) (cerr : OStream) :
    List Nat × OStream :=
  if _h : (glGetError queue).1 ≠ GL_NO_ERROR then
    _internal_checkGlErrors file line (glGetError queue).2
      (cerr ++ [file ++ "(" ++ toString line ++ "): " ++ errorStr (glGetError queue).1 ++
        "\n" ++ "\n"])
  else ((glGetError queue).2, cerr)
termination_by queue.length
decreasing_by
  cases queue with
  | nil => exact absurd rfl _h
  | cons c rest => simp [glGetError]

/-! ## Calls into the windowing and graphics libraries -/

/-! Further constants of `glad/glad.h` and of `GLFW/glfw3.h`, with the values the OpenGL
registry and GLFW assign to them; they only appear as arguments of recorded calls. -/

def GL_TRUE : Nat := 1
def GL_DONT_CARE : Nat := 0x1100
def GL_CONTEXT_FLAGS : Nat := 0x821E
def GL_DEBUG_OUTPUT : Nat := 0x92E0
def GL_DEBUG_OUTPUT_SYNCHRONOUS : Nat := 0x8242

def GLFW_CONTEXT_VERSION_MAJOR : Nat := 0x00022002
def GLFW_CONTEXT_VERSION_MINOR : Nat := 0x00022003
def GLFW_OPENGL_DEBUG_CONTEXT : Nat := 0x00022007
def GLFW_OPENGL_PROFILE : Nat := 0x00022008
def GLFW_DOUBLEBUFFER : Nat := 0x00021010
def GLFW_SRGB_CAPABLE : Nat := 0x0002100E
def GLFW_OPENGL_CORE_PROFILE : Nat := 0x00032001
def GLFW_OPENGL_COMPAT_PROFILE : Nat := 0x00032002

/-- One call leaving the program, with its arguments (the window handle, callbacks and null
pointers are left out). `update` records the runner calling the application's update hook,
which issues no call of its own. The only floating-point values of the program are the
literals `0.0f`, written `0`. -/
inductive Call where
  | glfwSetErrorCallback
  | glfwInit
  | glfwWindowHint (hint value : Nat)
  | glfwCreateWindow (width height : Int) (title : String)
  | glfwMakeContextCurrent
  | gladLoadGL
  | glGetIntegerv (pname : Nat)
  | glEnable (cap : Nat)
  | glDebugMessageCallback
  | glDebugMessageControl (source type severity : Nat) (count : Int) (enabled : Nat)
  | glViewport (x y width height : Int)
  | glClearColor (red green blue alpha : Int)
  | glClear (mask : Nat)
  | glfwWindowShouldClose
  | glfwPollEvents
  | update (deltaTime : Int)
  | glfwSetWindowShouldClose (value : Bool)
  | glfwSwapBuffers
  | glfwTerminate
  deriving DecidableEq

/-- The calls made only from inside the `while` of `main`: the close-flag query, the event
poll, the update hook (and the close request that may follow it), the two calls of `render`,
and the buffer swap. -/
def Call.inLoop : Call → Bool
  | .glfwWindowShouldClose => true
  | .glfwPollEvents => true
  | .update _ => true
  | .glfwSetWindowShouldClose _ => true
  | .glClearColor _ _ _ _ => true
  | .glClear _ => true
  | .glfwSwapBuffers => true
  | _ => false

/-- What the program does not decide: the build configuration and the answers of the
libraries. `closeSignal 0` is the window's close flag when it is created, `closeSignal (n+1)`
tells whether the `n`-th event poll (counted from 0) raises it. -/
structure Env where
  /-- The compiler's `_DEBUG`. -/
  debugBuild : Bool
  /-- Whether `glfwInit()` succeeds. -/
  glfwInit : Bool
  /-- Whether `glfwCreateWindow` returns a window (not `nullptr`). -/
  glfwCreateWindow : Bool
  /-- Whether `gladLoadGL()` succeeds. -/
  gladLoadGL : Bool
  /-- Whether `GL_CONTEXT_FLAG_DEBUG_BIT` is set in the context flags. -/
  debugContext : Bool
  closeSignal : Nat → Bool

/-- The state the program acts on: the trace of calls, the two streams, the window's close
flag, and how many event polls and update calls have been made. -/
structure World where
  trace : List Call
  cerr : OStream
  cout : OStream
  shouldClose : Bool
  polls : Nat
  updates : Nat

/-- Record one call. -/
def World.call (w : World) (c : Call) : World := { w with trace := w.trace ++ [c] }

/-- The statement `cerr << text << endl`. -/
def World.putErr (w : World) (text : String) : World := { w with cerr := w.cerr ++ [text ++ "\n"] }

/-- The statement `cout << text << endl`. -/
def World.putOut (w : World) (text : String) : World := { w with cout := w.cout ++ [text ++ "\n"] }

/-- The state at program start. -/
def World.start : World :=
  { trace := [], cerr := [], cout := [], shouldClose := false, polls := 0, updates := 0 }

/-- Modelled from the spec: `glfwCreateWindow` belongs to the windowing library, outside the
sources. The call is recorded and the new window's close flag is the environment's
`closeSignal 0`. -/
def glfwCreateWindow (env : Env) (width height : Int) (title : String) (w : World) : World :=
  { w.call (.glfwCreateWindow width height title) with shouldClose := env.closeSignal 0 }

/-- Modelled from the spec: `glfwPollEvents` belongs to the windowing library, outside the
sources. `main` registers no callback on the window, so the only effect of the event poll on
the program is that a close request raises the close flag. -/
def glfwPollEvents (env : Env) (w : World) : World :=
  { w.call .glfwPollEvents with
    shouldClose := w.shouldClose || env.closeSignal (w.polls + 1), polls := w.polls + 1 }

/-- Modelled from the spec: `glfwSetWindowShouldClose(window, value)`, the setter of the
windowing library's "close-flag query/set pair". -/
def glfwSetWindowShouldClose (value : Bool) (w : World) : World :=
  { w.call (.glfwSetWindowShouldClose value) with shouldClose := value }

/-! ## Application.cpp -/

/-- `void onResize(int width, int height)`. -/
def onResize (width height : Int) (w : World) : World :=
  w.call (.glViewport 0 0 width height)

/-- `bool initialize(int width, int height)`. -/
def initializeApp (width height : Int) (w : World) : Bool × World :=
  (true, onResize width height w)

/-- `bool update(float deltaTime)`; the only argument it is ever given is the literal `0.0f`. -/
def update (_deltaTime : Int) : Bool := true

/-- `void render()`. -/
def render (w : World) : World :=
  (w.call (.glClearColor 0 0 0 0)).call (.glClear (GL_COLOR_BUFFER_BIT ||| GL_DEPTH_BUFFER_BIT))

/-! ## `main` (Main.cpp 131-212) -/

def OPENGL_VERSION : Nat × Nat := (4, 3)
def OPENGL_COMPATABILITY : Bool := false
def DOUBLE_BUFFER : Bool := true
def SRGB_COLOR_BUFFER : Bool := false
def DEF_RESOLUTION : Int × Int := (720, 480)
def DEF_TITLE : String := "Graphics Prototyper"
def USE_DEBUG_CONTEXT : Bool := true

/-- The `while (!glfwWindowShouldClose(window))` loop of `main`, for an update hook given by the
value `updateHook n` its `n`-th call returns. `fuel` bounds the number of top-of-loop checks;
`none` means the bound was reached with the loop still running. -/
def mainLoop (env : Env) (updateHook : Nat → Bool) : Nat → World → Option World
  | 0, _ => none
  | fuel + 1, w =>
    let w := w.call .glfwWindowShouldClose
    if w.shouldClose then some w
    else
      let w := glfwPollEvents env w
      let continueRunning := updateHook w.updates
      let w := { w.call (.update 0) with updates := w.updates + 1 }
      let w := if !continueRunning then glfwSetWindowShouldClose true w else w
      let w := render w
      let w := w.call .glfwSwapBuffers
      mainLoop env updateHook fuel w

/-- The end of `main` (Main.cpp 198-211): the loop, then `glfwTerminate(); return 0;`. -/
def runMainLoop (env : Env) (updateHook : Nat → Bool) (fuel : Nat) (w : World) :
    Option (Int × World) :=
  match mainLoop env updateHook fuel w with
  | none => none
  | some w => some (0, w.call .glfwTerminate)

/-- The body of `main` with the update hook as a parameter; the result is the exit code and the
final state. `argc` and `argv` are unused. What the libraries write through callbacks
(`printGlfwError`, `putDebugContextMessage`) is not part of `main`'s own output. -/
def mainWith (updateHook : Nat → Bool) (env : Env) (fuel : Nat) : Option (Int × World) :=
  let w := World.start.call .glfwSetErrorCallback
  let w := w.call .glfwInit
  if !env.glfwInit then
    some (-1, w.putErr "Could not initialize GLFW. Cannot continue.")
  else
    -- Set all the window hints for the OpenGL window we want
    let w := w.call (.glfwWindowHint GLFW_CONTEXT_VERSION_MAJOR OPENGL_VERSION.1)
    let w := w.call (.glfwWindowHint GLFW_CONTEXT_VERSION_MINOR OPENGL_VERSION.2)
    let w := w.call (.glfwWindowHint GLFW_OPENGL_PROFILE
      (if OPENGL_COMPATABILITY then GLFW_OPENGL_COMPAT_PROFILE else GLFW_OPENGL_CORE_PROFILE))
    let w := w.call (.glfwWindowHint GLFW_DOUBLEBUFFER DOUBLE_BUFFER.toNat)
    let w := w.call (.glfwWindowHint GLFW_SRGB_CAPABLE SRGB_COLOR_BUFFER.toNat)
    let w := if env.debugBuild && USE_DEBUG_CONTEXT then
      w.call (.glfwWindowHint GLFW_OPENGL_DEBUG_CONTEXT GL_TRUE) else w
    let w := glfwCreateWindow env DEF_RESOLUTION.1 DEF_RESOLUTION.2 DEF_TITLE w
    if !env.glfwCreateWindow then
      let w := w.putErr "Could not create a window. Cannot continue."
      some (-1, w.call .glfwTerminate)
    else
      let w := w.call .glfwMakeContextCurrent
      let w := w.call .gladLoadGL
      if !env.gladLoadGL then
        let w := w.putErr "Could not load OpenGL 4.3. Cannot continue."
        some (-1, w.call .glfwTerminate)
      else
        let w :=
          if env.debugBuild && USE_DEBUG_CONTEXT then
            let w := w.call (.glGetIntegerv GL_CONTEXT_FLAGS)
            if env.debugContext then
              let w := w.putOut "Using debug context for error logging"
              let w := w.call (.glEnable GL_DEBUG_OUTPUT)
              let w := w.call (.glEnable GL_DEBUG_OUTPUT_SYNCHRONOUS)
              let w := w.call .glDebugMessageCallback
              w.call (.glDebugMessageControl GL_DONT_CARE GL_DONT_CARE GL_DONT_CARE 0 GL_TRUE)
            else w.putOut "Debug Contexts Not Available"
          else if env.debugBuild then w.putOut "Debug Contexts Disabled"
          else w
        let (ok, w) := initializeApp DEF_RESOLUTION.1 DEF_RESOLUTION.2 w
        if !ok then
          some (-1, w.putErr "Application failed to initialize. Cannot continue.")
        else
          runMainLoop env updateHook fuel w

/-- The program: `main` linked with the `update` of Application.cpp. -/
def main (env : Env) (fuel : Nat) : Option (Int × World) :=
  mainWith (fun _ => update 0) env fuel

/-- The calls of one full iteration of the main loop when `update` returns `true`. -/
def iterationCalls : List Call :=
  [.glfwWindowShouldClose, .glfwPollEvents, .update 0, .glClearColor 0 0 0 0,
   .glClear (GL_COLOR_BUFFER_BIT ||| GL_DEPTH_BUFFER_BIT), .glfwSwapBuffers]

/-- The message identifiers the callback ignores (the `||` chain of its first statement). -/
def ignoredIds : List Nat := [131169, 131185, 131218, 131204]

/-- An environment in which the bootstrap succeeds and the close flag is raised by the second
event poll. -/
def sampleEnv : Env :=
  { debugBuild := true, glfwInit := true, glfwCreateWindow := true, gladLoadGL := true,
    debugContext := false, closeSignal := fun n => n == 2 }

/-! ## Properties of `putDebugContextMessage` -/

theorem putDebugContextMessage_of_not_ignored (source type id severity : Nat) (length : Int)
    (message : String) (cerr : OStream) (hid : id ∉ ignoredIds) :
    putDebugContextMessage source type id severity length message cerr =
      cerr ++ ["Debug Message(" ++ toString id ++ "): " ++ colorStr type ++ message ++
        "\x1b[0m\n  Type:" ++ typeStr type ++
        "\n  Source: " ++ sourceStr source ++
        "\n  Severity: " ++ severityStr severity ++ "\n"] := by
  have h : ¬ (id = 131169 ∨ id = 131185 ∨ id = 131218 ∨ id = 131204) := by
    simpa [ignoredIds] using hid
  simp only [putDebugContextMessage, if_neg h]

theorem digitChar_ne_newline : ∀ k < 10, Nat.digitChar k ≠ '\n' := by
  decide

theorem toDigitsCore_no_newline : ∀ (f n : Nat) (acc : List Char), '\n' ∉ acc →
    '\n' ∉ Nat.toDigitsCore 10 f n acc := by
  intro f
  induction f with
  | zero => intro n acc h; simpa [Nat.toDigitsCore] using h
  | succ f ih =>
    intro n acc h
    have hd : '\n' ∉ Nat.digitChar (n % 10) :: acc := by
      simp only [List.mem_cons, not_or]
      exact ⟨fun e => digitChar_ne_newline _ (Nat.mod_lt n (by decide)) e.symm, h⟩
    simp only [Nat.toDigitsCore]
    split_ifs
    · exact hd
    · exact ih _ _ hd

/-- The decimal rendering of an `unsigned int` contains no newline. -/
theorem toString_nat_no_newline (n : Nat) : '\n' ∉ (toString n).toList := by
  show '\n' ∉ (Nat.repr n).toList
  simp only [Nat.repr, Nat.toDigits, List.asString, String.toList]
  exact toDigitsCore_no_newline _ _ _ (by simp)

theorem colorStr_no_newline (type : Nat) : '\n' ∉ (colorStr type).toList := by
  unfold colorStr typeSwitch
  split_ifs <;> decide

theorem firstLine_no_newline (type id : Nat) (message : String)
    (hmsg : '\n' ∉ message.toList) :
    '\n' ∉ ("Debug Message(" ++ toString id ++ "): " ++ colorStr type ++ message ++
      "\x1b[0m").toList := by
  have h1 := toString_nat_no_newline id
  have h2 := colorStr_no_newline type
  simp only [String.toList, String.data_append, List.mem_append, not_or] at *
  exact ⟨⟨⟨⟨⟨by decide, h1⟩, by decide⟩, h2⟩, hmsg⟩, by decide⟩

theorem typeStr_no_newline (type : Nat) : '\n' ∉ ("  Type:" ++ typeStr type).toList := by
  unfold typeStr typeSwitch
  split_ifs <;> decide

theorem sourceStr_no_newline (source : Nat) : '\n' ∉ ("  Source: " ++ sourceStr source).toList := by
  unfold sourceStr
  split_ifs <;> decide

theorem severityStr_no_newline (severity : Nat) :
    '\n' ∉ ("  Severity: " ++ severityStr severity).toList := by
  unfold severityStr
  split_ifs <;> decide

/-- C1: for each of the four ignored message ids 131169, 131185, 131218 and 131204, and for every
source, type, severity, length and message text, `putDebugContextMessage` leaves the stream
`cerr` exactly as it was: nothing is written. -/
theorem putDebugContextMessage_ignored_ids_silent (source type severity : Nat) (length : Int)
    (message : String) (cerr : OStream) :
    putDebugContextMessage source type 131169 severity length message cerr = cerr ∧
    putDebugContextMessage source type 131185 severity length message cerr = cerr ∧
    putDebugContextMessage source type 131218 severity length message cerr = cerr ∧
    putDebugContextMessage source type 131204 severity length message cerr = cerr := by
  simp [putDebugContextMessage]

/-- C2 (as stated, refuted): for the type `GL_DEBUG_TYPE_DEPRECATED_BEHAVIOR` the label the
callback produces is `Deprecated Behaviour`, which is not the documented `Deprecated Behavior`;
likewise `Undefined Behaviour` is produced where `Undefined Behavior` is documented. -/
theorem typeStr_differs_from_documented_label :
    typeStr GL_DEBUG_TYPE_DEPRECATED_BEHAVIOR = "Deprecated Behaviour" ∧
    typeStr GL_DEBUG_TYPE_DEPRECATED_BEHAVIOR ≠
      documentedTypeLabel GL_DEBUG_TYPE_DEPRECATED_BEHAVIOR ∧
    typeStr GL_DEBUG_TYPE_UNDEFINED_BEHAVIOR = "Undefined Behaviour" ∧
    typeStr GL_DEBUG_TYPE_UNDEFINED_BEHAVIOR ≠
      documentedTypeLabel GL_DEBUG_TYPE_UNDEFINED_BEHAVIOR := by
  decide

/-- C2 (amended): the type label is `Error`, `Deprecated Behaviour`, `Undefined Behaviour`,
`Portability`, `Performance`, `Marker`, `Push Group`, `Pop Group`, `Other` for the nine defined
message types respectively, and the empty string for every type value outside that set. -/
theorem typeStr_table :
    typeStr GL_DEBUG_TYPE_ERROR = "Error" ∧
    typeStr GL_DEBUG_TYPE_DEPRECATED_BEHAVIOR = "Deprecated Behaviour" ∧
    typeStr GL_DEBUG_TYPE_UNDEFINED_BEHAVIOR = "Undefined Behaviour" ∧
    typeStr GL_DEBUG_TYPE_PORTABILITY = "Portability" ∧
    typeStr GL_DEBUG_TYPE_PERFORMANCE = "Performance" ∧
    typeStr GL_DEBUG_TYPE_MARKER = "Marker" ∧
    typeStr GL_DEBUG_TYPE_PUSH_GROUP = "Push Group" ∧
    typeStr GL_DEBUG_TYPE_POP_GROUP = "Pop Group" ∧
    typeStr GL_DEBUG_TYPE_OTHER = "Other" ∧
    ∀ type : Nat, type ∉ debugTypes → typeStr type = "" := by
  refine ⟨by decide, by decide, by decide, by decide, by decide, by decide, by decide,
    by decide, by decide, ?_⟩
  intro type h
  simp only [debugTypes, List.mem_cons, List.mem_singleton, not_or, List.not_mem_nil,
    or_false] at h
  obtain ⟨h1, h2, h3, h4, h5, h6, h7, h8, h9⟩ := h
  simp [typeStr, typeSwitch, h1, h2, h3, h4, h5, h6, h7, h8, h9]

/-- Witness of C2 (amended) at the unrecognised type value 0. -/
theorem typeStr_table_witness : typeStr 0 = "" :=
  typeStr_table.2.2.2.2.2.2.2.2.2 0 (by decide)

/-- C3: the source label is `API`, `Window System`, `Shader Compiler`, `Third Party`,
`Application`, `Other` for the six defined sources; the severity label is `high`, `medium`,
`low`, `notification` for the four defined severities; outside these sets the label is the empty
string; and a message whose id is not ignored is written as one record carrying these labels
whatever the source and severity values are, recognised or not. -/
theorem sourceStr_severityStr_table (source type id severity : Nat) (length : Int)
    (message : String) (cerr : OStream) (hid : id ∉ ignoredIds) :
    (sourceStr GL_DEBUG_SOURCE_API = "API" ∧
     sourceStr GL_DEBUG_SOURCE_WINDOW_SYSTEM = "Window System" ∧
     sourceStr GL_DEBUG_SOURCE_SHADER_COMPILER = "Shader Compiler" ∧
     sourceStr GL_DEBUG_SOURCE_THIRD_PARTY = "Third Party" ∧
     sourceStr GL_DEBUG_SOURCE_APPLICATION = "Application" ∧
     sourceStr GL_DEBUG_SOURCE_OTHER = "Other") ∧
    (severityStr GL_DEBUG_SEVERITY_HIGH = "high" ∧
     severityStr GL_DEBUG_SEVERITY_MEDIUM = "medium" ∧
     severityStr GL_DEBUG_SEVERITY_LOW = "low" ∧
     severityStr GL_DEBUG_SEVERITY_NOTIFICATION = "notification") ∧
    (source ∉ debugSources → sourceStr source = "") ∧
    (severity ∉ debugSeverities → severityStr severity = "") ∧
    putDebugContextMessage source type id severity length message cerr =
      cerr ++ ["Debug Message(" ++ toString id ++ "): " ++ colorStr type ++ message ++
        "\x1b[0m\n  Type:" ++ typeStr type ++
        "\n  Source: " ++ sourceStr source ++
        "\n  Severity: " ++ severityStr severity ++ "\n"] := by
  refine ⟨by decide, by decide, ?_, ?_, putDebugContextMessage_of_not_ignored _ _ _ _ _ _ _ hid⟩
  · intro h
    simp only [debugSources, List.mem_cons, List.mem_singleton, not_or, List.not_mem_nil,
      or_false] at h
    obtain ⟨h1, h2, h3, h4, h5, h6⟩ := h
    simp [sourceStr, h1, h2, h3, h4, h5, h6]
  · intro h
    simp only [debugSeverities, List.mem_cons, List.mem_singleton, not_or, List.not_mem_nil,
      or_false] at h
    obtain ⟨h1, h2, h3, h4⟩ := h
    simp [severityStr, h1, h2, h3, h4]

/-- Witness of C3: message 7 with the unrecognised source 0 and severity 1 is still written,
with empty source and severity labels. -/
theorem sourceStr_severityStr_table_witness :
    (7 ∉ ignoredIds ∧ 0 ∉ debugSources ∧ 1 ∉ debugSeverities) ∧
    putDebugContextMessage 0 GL_DEBUG_TYPE_OTHER 7 1 2 "hi" [] =
      ["Debug Message(7): hi\x1b[0m\n  Type:Other\n  Source: \n  Severity: \n"] :=
  ⟨by decide,
   (sourceStr_severityStr_table 0 GL_DEBUG_TYPE_OTHER 7 1 2 "hi" [] (by decide)).2.2.2.2.trans
     (by decide)⟩

/-- C4: for a message whose id is not ignored, the text written in front of the message is
`colorStr type`, and that marker is non-empty exactly when the type is `GL_DEBUG_TYPE_ERROR`;
for every other type value, recognised or not, it is the empty string. -/
theorem colorStr_nonempty_iff_error (source type id severity : Nat) (length : Int)
    (message : String) (cerr : OStream) (hid : id ∉ ignoredIds) :
    putDebugContextMessage source type id severity length message cerr =
      cerr ++ ["Debug Message(" ++ toString id ++ "): " ++ colorStr type ++ message ++
        "\x1b[0m\n  Type:" ++ typeStr type ++
        "\n  Source: " ++ sourceStr source ++
        "\n  Severity: " ++ severityStr severity ++ "\n"] ∧
    (colorStr type ≠ "" ↔ type = GL_DEBUG_TYPE_ERROR) ∧
    (type ≠ GL_DEBUG_TYPE_ERROR → colorStr type = "") := by
  have hne : type ≠ GL_DEBUG_TYPE_ERROR → colorStr type = "" := by
    intro h
    unfold colorStr typeSwitch
    rw [if_neg h]
    split_ifs <;> rfl
  refine ⟨putDebugContextMessage_of_not_ignored _ _ _ _ _ _ _ hid, ⟨?_, ?_⟩, hne⟩
  · intro h
    by_contra hc
    exact h (hne hc)
  · intro h
    subst h
    decide

/-- Witness of C4: an Error message carries the marker, a Performance message does not. -/
theorem colorStr_nonempty_iff_error_witness :
    7 ∉ ignoredIds ∧
    (colorStr GL_DEBUG_TYPE_ERROR ≠ "" ↔ GL_DEBUG_TYPE_ERROR = GL_DEBUG_TYPE_ERROR) ∧
    colorStr GL_DEBUG_TYPE_PERFORMANCE = "" :=
  ⟨by decide,
   (colorStr_nonempty_iff_error GL_DEBUG_SOURCE_API GL_DEBUG_TYPE_ERROR 7
      GL_DEBUG_SEVERITY_HIGH 0 "e" [] (by decide)).2.1,
   (colorStr_nonempty_iff_error GL_DEBUG_SOURCE_API GL_DEBUG_TYPE_PERFORMANCE 7
      GL_DEBUG_SEVERITY_HIGH 0 "e" [] (by decide)).2.2 (by decide)⟩

/-- C5: for a message whose id is not ignored, whatever its source, type and severity, exactly
one entry is appended to `cerr`; its text is four newline-terminated lines: the id with the
marked message text, then the type label, the source label and the severity label, in this
order; none of the three label lines contains a newline of its own, and neither does the first
line when the message text contains none. -/
theorem putDebugContextMessage_one_record (source type id severity : Nat) (length : Int)
    (message : String) (cerr : OStream) (hid : id ∉ ignoredIds) :
    putDebugContextMessage source type id severity length message cerr =
      cerr ++ [("Debug Message(" ++ toString id ++ "): " ++ colorStr type ++ message ++
          "\x1b[0m") ++ "\n" ++
        ("  Type:" ++ typeStr type) ++ "\n" ++
        ("  Source: " ++ sourceStr source) ++ "\n" ++
        ("  Severity: " ++ severityStr severity) ++ "\n"] ∧
    (putDebugContextMessage source type id severity length message cerr).length =
      cerr.length + 1 ∧
    ('\n' ∉ message.toList →
      '\n' ∉ ("Debug Message(" ++ toString id ++ "): " ++ colorStr type ++ message ++
        "\x1b[0m").toList) ∧
    '\n' ∉ ("  Type:" ++ typeStr type).toList ∧
    '\n' ∉ ("  Source: " ++ sourceStr source).toList ∧
    '\n' ∉ ("  Severity: " ++ severityStr severity).toList := by
  have h := putDebugContextMessage_of_not_ignored source type id severity length message cerr hid
  refine ⟨?_, ?_, firstLine_no_newline type id message, typeStr_no_newline type,
    sourceStr_no_newline source, severityStr_no_newline severity⟩
  · rw [h]
    congr 2
    have e1 : ("\x1b[0m\n  Type:" : String) = "\x1b[0m" ++ "\n" ++ "  Type:" := by decide
    have e2 : ("\n  Source: " : String) = "\n" ++ "  Source: " := by decide
    have e3 : ("\n  Severity: " : String) = "\n" ++ "  Severity: " := by decide
    rw [e1, e2, e3]
    simp only [String.append_assoc]
  · rw [h]
    simp

/-- Witness of C5: the record of an Error message from the API with high severity. -/
theorem putDebugContextMessage_one_record_witness :
    7 ∉ ignoredIds ∧
    putDebugContextMessage GL_DEBUG_SOURCE_API GL_DEBUG_TYPE_ERROR 7 GL_DEBUG_SEVERITY_HIGH 3
      "bad" ["earlier\n"] =
      ["earlier\n",
       "Debug Message(7): \x1b[91mbad\x1b[0m\n  Type:Error\n  Source: API\n  Severity: high\n"] :=
  ⟨by decide,
   (putDebugContextMessage_one_record GL_DEBUG_SOURCE_API GL_DEBUG_TYPE_ERROR 7
      GL_DEBUG_SEVERITY_HIGH 3 "bad" ["earlier\n"] (by decide)).1.trans (by decide)⟩

/-! ## Properties of `_internal_checkGlErrors` -/

/-- C6: when no queued code is `GL_NO_ERROR`, the drain returns (the recursion is well-founded),
leaves the queue empty and appends to `cerr` one entry per queued code, in queue order, each
made of the caller's file and line and the name of the code; so `N` queued codes give `N`
entries and an empty queue gives none. -/
theorem checkGlErrors_drains_queue (file : String) (line : Int) (queue : List Nat)
    (cerr : OStream) (hq : ∀ c ∈ queue, c ≠ GL_NO_ERROR) :
    _internal_checkGlErrors file line queue cerr =
      ([], cerr ++ queue.map (fun errorCode =>
        file ++ "(" ++ toString line ++ "): " ++ errorStr errorCode ++ "\n" ++ "\n")) ∧
    (_internal_checkGlErrors file line queue cerr).2.length = cerr.length + queue.length ∧
    _internal_checkGlErrors file line [] cerr = ([], cerr) := by
  have main : ∀ (queue : List Nat) (cerr : OStream), (∀ c ∈ queue, c ≠ GL_NO_ERROR) →
      _internal_checkGlErrors file line queue cerr =
        ([], cerr ++ queue.map (fun errorCode =>
          file ++ "(" ++ toString line ++ "): " ++ errorStr errorCode ++ "\n" ++ "\n")) := by
    intro queue
    induction queue with
    | nil =>
      intro cerr _
      rw [_internal_checkGlErrors]
      simp [glGetError]
    | cons c rest ih =>
      intro cerr h
      have hc : c ≠ GL_NO_ERROR := h c (List.mem_cons_self _ _)
      rw [_internal_checkGlErrors]
      have hg : (glGetError (c :: rest)).1 ≠ GL_NO_ERROR := hc
      rw [dif_pos hg]
      show _internal_checkGlErrors file line rest _ = _
      rw [ih _ (fun x hx => h x (List.mem_cons_of_mem _ hx))]
      simp [glGetError]
  refine ⟨main queue cerr hq, ?_, ?_⟩
  · rw [main queue cerr hq]
    simp
  · simpa using main [] cerr (by simp)

/-- Witness of C6: two pending errors reported from `Application.cpp`, line 32. -/
theorem checkGlErrors_drains_queue_witness :
    (∀ c ∈ [GL_INVALID_VALUE, GL_OUT_OF_MEMORY], c ≠ GL_NO_ERROR) ∧
    _internal_checkGlErrors "Application.cpp" 32 [GL_INVALID_VALUE, GL_OUT_OF_MEMORY] [] =
      ([], ["Application.cpp(32): INVALID_VALUE\n\n", "Application.cpp(32): OUT_OF_MEMORY\n\n"]) :=
  ⟨by decide,
   (checkGlErrors_drains_queue "Application.cpp" 32 [GL_INVALID_VALUE, GL_OUT_OF_MEMORY] []
      (by decide)).1.trans (by decide)⟩

/-! ## Properties of the application hooks and of `main` -/

/-- C8: for every width and height, `onResize(width, height)` followed by `render()` issues
exactly three calls: `glViewport(0, 0, width, height)`, `glClearColor(0, 0, 0, 0)` and `glClear`
with the colour and depth bits (mask `0x4100`), and changes nothing else; for 800 by 600 the
viewport call is `glViewport(0, 0, 800, 600)`. -/
theorem onResize_then_render (width height : Int) (w : World) :
    render (onResize width height w) =
      { w with trace := w.trace ++
          [Call.glViewport 0 0 width height, Call.glClearColor 0 0 0 0,
           Call.glClear (GL_COLOR_BUFFER_BIT ||| GL_DEPTH_BUFFER_BIT)] } ∧
    GL_COLOR_BUFFER_BIT ||| GL_DEPTH_BUFFER_BIT = 0x4100 ∧
    (render (onResize 800 600 World.start)).trace =
      [Call.glViewport 0 0 800 600, Call.glClearColor 0 0 0 0, Call.glClear 0x4100] := by
  refine ⟨?_, by decide, by decide⟩
  simp [render, onResize, World.call]

theorem mainWith_after_bootstrap (env : Env) (hinit : env.glfwInit = true)
    (hwindow : env.glfwCreateWindow = true) (hload : env.gladLoadGL = true) :
    ∃ w0 : World, (∀ c ∈ w0.trace, c.inLoop = false) ∧ w0.shouldClose = env.closeSignal 0 ∧
      w0.polls = 0 ∧ w0.updates = 0 ∧ w0.cerr = [] ∧
      ∀ (updateHook : Nat → Bool) (fuel : Nat),
        mainWith updateHook env fuel = runMainLoop env updateHook fuel w0 := by
  obtain ⟨db, gi, cw, gl, dc, cs⟩ := env
  simp only at hinit hwindow hload
  subst hinit hwindow hload
  cases db <;> cases dc <;>
    refine ⟨_, ?_, ?_, ?_, ?_, ?_, fun updateHook fuel => rfl⟩ <;>
    first
      | rfl
      | simp [onResize, World.call, glfwCreateWindow, World.putOut, World.start,
          USE_DEBUG_CONTEXT, Call.inLoop]

theorem mainLoop_iterations (env : Env) (updateHook : Nat → Bool)
    (hupdate : ∀ n, updateHook n = true) :
    ∀ (k fuel : Nat) (w : World), w.shouldClose = env.closeSignal w.polls →
      (∀ i < k, env.closeSignal (w.polls + i) = false) →
      env.closeSignal (w.polls + k) = true → k < fuel →
      mainLoop env updateHook fuel w =
        some { w with
          trace := w.trace ++ (List.replicate k iterationCalls).flatten ++
            [Call.glfwWindowShouldClose]
          shouldClose := true
          polls := w.polls + k
          updates := w.updates + k } := by
  intro k
  induction k with
  | zero =>
    intro fuel w hflag _ htrue hfuel
    obtain ⟨f, rfl⟩ : ∃ f, fuel = f + 1 := ⟨fuel - 1, by omega⟩
    have hc : w.shouldClose = true := by rw [hflag]; simpa using htrue
    simp [mainLoop, World.call, hc]
  | succ k ih =>
    intro fuel w hflag hfalse htrue hfuel
    obtain ⟨f, rfl⟩ : ∃ f, fuel = f + 1 := ⟨fuel - 1, by omega⟩
    have hc : w.shouldClose = false := by
      rw [hflag]; simpa using hfalse 0 (Nat.succ_pos k)
    have hnext : ∀ i < k, env.closeSignal (w.polls + 1 + i) = false := by
      intro i hi
      have := hfalse (i + 1) (by omega)
      rwa [show w.polls + 1 + i = w.polls + (i + 1) by omega]
    have htrue2 : env.closeSignal (w.polls + 1 + k) = true := by
      rwa [show w.polls + 1 + k = w.polls + (k + 1) by omega]
    rw [mainLoop]
    simp only [World.call, hc, Bool.false_eq_true, if_false, glfwPollEvents, hupdate,
      Bool.not_true, render, Bool.false_or]
    rw [ih f _ rfl hnext htrue2 (by omega)]
    simp [iterationCalls, List.replicate_succ, Nat.add_assoc, Nat.add_comm 1 k]

/-- C7: when `glfwInit` fails, or window creation fails, or `gladLoadGL` fails, `main` returns
-1 for every fuel, has written exactly one line to `cerr` (the message of the first step that
failed), and its trace holds no call of the main loop: no close-flag query, event poll, update,
render call or buffer swap. -/
theorem main_bootstrap_failure (env : Env) (fuel : Nat)
    (hfail : env.glfwInit = false ∨ env.glfwCreateWindow = false ∨ env.gladLoadGL = false) :
    ∃ w : World, main env fuel = some (-1, w) ∧
      w.cerr = [if env.glfwInit = false then "Could not initialize GLFW. Cannot continue.\n"
        else if env.glfwCreateWindow = false then "Could not create a window. Cannot continue.\n"
        else "Could not load OpenGL 4.3. Cannot continue.\n"] ∧
      ∀ c ∈ w.trace, c.inLoop = false := by
  obtain ⟨db, gi, cw, gl, dc, cs⟩ := env
  simp only at hfail
  cases gi
  · cases db <;> refine ⟨_, rfl, rfl, ?_⟩ <;>
      simp [World.call, World.putErr, World.start, Call.inLoop]
  · cases cw
    · cases db <;> refine ⟨_, rfl, rfl, ?_⟩ <;>
        simp [World.call, World.putErr, World.start, glfwCreateWindow, USE_DEBUG_CONTEXT,
          Call.inLoop]
    · have hgl : gl = false := by simpa using hfail
      subst hgl
      cases db <;> refine ⟨_, rfl, rfl, ?_⟩ <;>
        simp [World.call, World.putErr, World.start, glfwCreateWindow, USE_DEBUG_CONTEXT,
          Call.inLoop]

/-- Witness of C7: window creation fails. -/
theorem main_bootstrap_failure_witness :
    ∃ w : World, main { sampleEnv with glfwCreateWindow := false } 0 = some (-1, w) ∧
      w.cerr = ["Could not create a window. Cannot continue.\n"] ∧
      ∀ c ∈ w.trace, c.inLoop = false :=
  main_bootstrap_failure { sampleEnv with glfwCreateWindow := false } 0 (Or.inr (Or.inl rfl))

/-- C9: when the bootstrap succeeds and the close flag is seen false at the first `k` loop
checks and true at the next one, `main` with any fuel above `k` returns 0; after the bootstrap
calls (none of which is a loop call) its trace is `k` times the iteration
close-flag query, poll events, update, render (`glClearColor`, `glClear`), swap buffers,
followed by the final close-flag query and `glfwTerminate`; nothing is written to `cerr`. -/
theorem main_runs_k_iterations (env : Env) (k fuel : Nat) (hinit : env.glfwInit = true)
    (hwindow : env.glfwCreateWindow = true) (hload : env.gladLoadGL = true)
    (hfalse : ∀ i < k, env.closeSignal i = false) (htrue : env.closeSignal k = true)
    (hfuel : k < fuel) :
    ∃ (w : World) (boot : List Call), main env fuel = some (0, w) ∧
      (∀ c ∈ boot, c.inLoop = false) ∧
      w.trace = boot ++ (List.replicate k iterationCalls).flatten ++
        [Call.glfwWindowShouldClose, Call.glfwTerminate] ∧
      w.polls = k ∧ w.updates = k ∧ w.cerr = [] := by
  obtain ⟨w0, hboot, hflag, hpolls, hupdates, hcerr, hmain⟩ :=
    mainWith_after_bootstrap env hinit hwindow hload
  have hloop := mainLoop_iterations env (fun _ => update 0) (fun _ => rfl) k fuel w0
    (by rw [hflag, hpolls])
    (by intro i hi; rw [hpolls, Nat.zero_add]; exact hfalse i hi)
    (by rw [hpolls, Nat.zero_add]; exact htrue) hfuel
  have hrun : main env fuel = some (0, World.call
      { w0 with
        trace := w0.trace ++ (List.replicate k iterationCalls).flatten ++
          [Call.glfwWindowShouldClose]
        shouldClose := true
        polls := w0.polls + k
        updates := w0.updates + k } Call.glfwTerminate) := by
    rw [main, hmain, runMainLoop, hloop]
  refine ⟨_, w0.trace, hrun, hboot, ?_, ?_, ?_, ?_⟩
  · simp [World.call]
  · simp [World.call, hpolls]
  · simp [World.call, hupdates]
  · simp [World.call, hcerr]

/-- Witness of C9: the close flag is raised by the second poll, so two iterations run. -/
theorem main_runs_k_iterations_witness :
    ∃ (w : World) (boot : List Call), main sampleEnv 3 = some (0, w) ∧
      (∀ c ∈ boot, c.inLoop = false) ∧
      w.trace = boot ++ (List.replicate 2 iterationCalls).flatten ++
        [Call.glfwWindowShouldClose, Call.glfwTerminate] ∧
      w.polls = 2 ∧ w.updates = 2 ∧ w.cerr = [] :=
  main_runs_k_iterations sampleEnv 2 3 rfl rfl rfl (by decide) rfl (by decide)

/-- C10: in the main loop run with an arbitrary update hook, from any state whose close flag is
down: if the hook returns false in the iteration that starts there, that iteration raises the
close flag right after the update, still performs render and the buffer swap, and the loop is
left at the very next close-flag query, with no further poll, update, render or swap. -/
theorem mainLoop_update_false (env : Env) (updateHook : Nat → Bool) (fuel : Nat) (w : World)
    (hopen : w.shouldClose = false) (hupdate : updateHook w.updates = false) :
    mainLoop env updateHook (fuel + 2) w =
      some { w with
        trace := w.trace ++
          [Call.glfwWindowShouldClose, Call.glfwPollEvents, Call.update 0,
           Call.glfwSetWindowShouldClose true, Call.glClearColor 0 0 0 0,
           Call.glClear (GL_COLOR_BUFFER_BIT ||| GL_DEPTH_BUFFER_BIT), Call.glfwSwapBuffers,
           Call.glfwWindowShouldClose]
        shouldClose := true
        polls := w.polls + 1
        updates := w.updates + 1 } := by
  simp [mainLoop, World.call, glfwPollEvents, glfwSetWindowShouldClose, render, hopen, hupdate]

/-- Witness of C10: an update hook that asks to stop at its first call. -/
theorem mainLoop_update_false_witness :
    mainLoop sampleEnv (fun _ => false) 2 World.start =
      some { World.start with
        trace :=
          [Call.glfwWindowShouldClose, Call.glfwPollEvents, Call.update 0,
           Call.glfwSetWindowShouldClose true, Call.glClearColor 0 0 0 0,
           Call.glClear (GL_COLOR_BUFFER_BIT ||| GL_DEPTH_BUFFER_BIT), Call.glfwSwapBuffers,
           Call.glfwWindowShouldClose]
        shouldClose := true
        polls := 1
        updates := 1 } :=
  mainLoop_update_false sampleEnv (fun _ => false) 0 World.start rfl rfl

end LuaGraphicsPrototyper
